import Mathlib

/-!
Verification development for the MICRO_BOT bridge server
(`src/MICRO_BOT/bridge_server.py`).

Times and fitness scores are modelled as rationals (`ℚ`); the server's
`time.time()` calls inside one handler invocation are modelled by a single
`now` parameter.  Python dicts keyed by strings are modelled as association
lists, and `collections.deque(maxlen = n)` as a list with a capped append
that evicts from the front.
-/

namespace Jumbo

/-- Append to a `deque(maxlen = cap)`: the element goes to the back and, when
the capacity is exceeded, the oldest elements are dropped from the front. -/
def capAppend (cap : Nat) (l : List α) (x : α) : List α :=
  let l' := l ++ [x]
  if cap < l'.length then l'.drop (l'.length - cap) else l'

/-- Header of an ESP-NOW swarm message (`data['header']`), present exactly when
the dict has a `header` key with a `messageType` field. -/
structure SwarmHeader where
  messageType : Nat
  priority : Int := 1
deriving DecidableEq

/-- Fields of `message['payload']` read by the swarm handlers.  Keys accessed
only through `.get(key, default)` are plain fields carrying that default;
keys tested with `in` (`generation`, `fitnessScore`) are `Option`s. -/
structure SwarmPayload where
  fitnessScore : Option ℚ := none
  generation : Option Int := none
  taskId : Nat := 0
  taskType : Nat := 0
  taskPriority : Int := 1
  targetBot : String := "unknown"
  formationType : Nat := 0
  scale : ℚ := 1
  centerX : ℚ := 0
  centerY : ℚ := 0
  width : ℚ := 0
  height : ℚ := 0
  strategy : Nat := 0
  botType : Nat := 0
  currentRole : Nat := 0
  capabilities : List Nat := []
deriving DecidableEq

/-- The parsed JSON dict of one inbound bot frame.  `process_message` later
mutates this same dict, adding the keys `processed_at` and `micro_bot_id`
(and `swarm_analysis` for swarm frames); those start out absent (`none`). -/
structure FrameData where
  bot_id : Option String := none
  type : Option String := none
  priority : Option Int := none
  generation : Option Int := none
  fitness_score : Option ℚ := none
  header : Option SwarmHeader := none
  payload : SwarmPayload := {}
  processed_at : Option ℚ := none
  micro_bot_id : Option String := none
  swarm_analysis : Option String := none
deriving DecidableEq

/-- Entry of `peer_relationships` (built by `_handle_discovery`). -/
structure Peer where
  first_seen : ℚ
  last_discovery : ℚ
  bot_type : Nat := 0
  role : Nat := 0
  capabilities : List Nat := []
  discovery_count : Nat := 1
deriving DecidableEq

/-- Entry of the `swarm_messages` deque built in `process_swarm_message`. -/
structure SwarmMsg where
  bot_id : String
  timestamp : ℚ
  type : Nat
  payload : SwarmPayload
  priority : Int
deriving DecidableEq

/-- Entry of `task_assignments` (first-writer record for a task id). -/
structure TaskRecord where
  assigned_by : String
  task_type : Nat
  priority : Int
  created_time : ℚ
  status : String := "assigned"
  target_bot : String := "unknown"
deriving DecidableEq

/-- Entry of `swarm_state.active_tasks` (the per-assignment summary). -/
structure TaskSummary where
  id : Nat
  type : Nat
  priority : Int
  assigned_by : String
  status : String := "active"
deriving DecidableEq

/-- Entry of the `formation_history` deque. -/
structure FormationChange where
  timestamp : ℚ
  requested_by : String
  formation_type : Nat
  scale : ℚ
deriving DecidableEq

/-- Value of `swarm_state.active_formations[bot_id]`. -/
structure FormationState where
  type : Nat
  scale : ℚ
  updated : ℚ
deriving DecidableEq

/-- Entry of `swarm_state.exploration_zones`.  Zones appended by the swarm
handler `_handle_area_claim` carry a `claimed_time` key; zones appended by the
operator command `assign_exploration_zone` instead carry `assigned_time`.
Absent dict keys are `none`. -/
structure Zone where
  bot_id : String
  center_x : ℚ := 0
  center_y : ℚ := 0
  width : ℚ := 0
  height : ℚ := 0
  strategy : Nat := 0
  claimed_time : Option ℚ := none
  assigned_time : Option ℚ := none
deriving DecidableEq

/-- The whole `SwarmIntelligenceMonitor` state (its `SwarmState` dataclass
inlined).  Python dicts are association lists in insertion order; the two
deques have capacities 500 (`swarm_messages`) and 50 (`formation_history`). -/
structure Monitor where
  leader_bot : Option String := none
  leadership_election_active : Bool := false
  active_formations : List (String × FormationState) := []
  active_tasks : List TaskSummary := []
  exploration_zones : List Zone := []
  swarm_messages : List SwarmMsg := []
  peer_relationships : List (String × Peer) := []
  task_assignments : List (Nat × TaskRecord) := []
  formation_history : List FormationChange := []
  behavior_patterns : List (String × Nat) := []
deriving DecidableEq

/-- Python `d[k] = v` on a dict modelled as an association list: update in
place when the key is present, append otherwise. -/
def setAssoc [DecidableEq α] (l : List (α × β)) (k : α) (v : β) : List (α × β) :=
  if (l.lookup k).isSome then
    l.map (fun p => if p.1 = k then (k, v) else p)
  else
    l ++ [(k, v)]

/-- `BotMessage` dataclass: the unit handled by the `SignalFilter`. -/
structure BotMessage where
  bot_id : String
  message_type : String
  timestamp : ℚ
  data : FrameData
  filtered : Bool := false
  priority : Int := 1
deriving DecidableEq

/-- `SignalFilter.filter_rules` with its defaults. -/
structure FilterRules where
  rate_limit : Nat := 10
  duplicate_window : ℚ := 2
  priority_threshold : Int := 2
deriving DecidableEq

/-- `SignalFilter.should_filter`: rate limit, then duplicate detection over the
whole per-bot history, then the priority gate.  `hist` is the per-bot deque at
the time of the call and `now` is `time.time()` inside the method. -/
def should_filter (rules : FilterRules) (hist : List BotMessage)
    (m : BotMessage) (now : ℚ) : Bool :=
  let recent_messages := hist.filter (fun p => decide (now - p.timestamp < 1))
  if rules.rate_limit ≤ recent_messages.length then
    true
  else if hist.any (fun p =>
      decide (now - p.timestamp < rules.duplicate_window)
      && decide (p.message_type = m.message_type)
      && decide (p.data = m.data)) then
    true
  else if m.priority < rules.priority_threshold ∧ 5 < recent_messages.length then
    true
  else
    false

/-- The in-place dict mutation at the end of `process_message`:
`data['processed_at'] = time.time()` and `data['micro_bot_id']`. -/
def addProcessingMetadata (d : FrameData) (now : ℚ) : FrameData :=
  { d with processed_at := some now, micro_bot_id := some "RPI3-BRIDGE-001" }

/-- `SignalFilter.process_message` restricted to one bot's history: the message
is appended to the deque (capacity 100) first, `should_filter` then runs over a
history that already contains it, and finally the shared dict is mutated with
processing metadata (the history entry aliases the returned message).  Returns
the processed message and the new history. -/
def process_message (rules : FilterRules) (hist : List BotMessage)
    (m : BotMessage) (now : ℚ) : BotMessage × List BotMessage :=
  let decision := should_filter rules (capAppend 100 hist m) m now
  let m' := { m with filtered := decision,
                     data := addProcessingMetadata m.data now }
  (m', capAppend 100 hist m')

/-- Run a sequence of (message, arrival-time) pairs through the filter,
starting from history `hist`; returns the processed messages in order and the
final history. -/
def runFilter (rules : FilterRules) (hist : List BotMessage) :
    List (BotMessage × ℚ) → List BotMessage × List BotMessage
  | [] => ([], hist)
  | (m, now) :: rest =>
      let r := process_message rules hist m now
      let rec' := runFilter rules r.2 rest
      (r.1 :: rec'.1, rec'.2)

/-- The burst of claim C1: eleven messages of kind `status` from bot `W`, one
every 1/25 s (all within 0.4 s), with distinct payloads (`generation` differs). -/
def burstMessages : List (BotMessage × ℚ) :=
  (List.range 11).map (fun (i : Nat) =>
    ({ bot_id := "W", message_type := "status", timestamp := (i : ℚ) / 25,
       data := { bot_id := some "W", type := some "status",
                 generation := some (Int.ofNat i) },
       priority := 1 },
     (i : ℚ) / 25))

/-- `_handle_discovery`: create the peer record on first contact, otherwise
refresh `last_discovery` and bump `discovery_count`. -/
def handle_discovery (st : Monitor) (bot : String) (payload : SwarmPayload)
    (now : ℚ) : Monitor :=
  if (st.peer_relationships.lookup bot).isSome then
    { st with peer_relationships :=
        st.peer_relationships.map (fun p =>
          if p.1 = bot then
            (p.1, { p.2 with last_discovery := now,
                             discovery_count := p.2.discovery_count + 1 })
          else p) }
  else
    { st with peer_relationships := st.peer_relationships ++
        [(bot, { first_seen := now, last_discovery := now,
                 bot_type := payload.botType, role := payload.currentRole,
                 capabilities := payload.capabilities, discovery_count := 1 })] }

/-- `_get_leader_fitness`: 0 when no leader is set; otherwise scan the swarm
message log backwards for the most recent discovery message (type `0x01`) from
the leader and take its `fitnessScore` (default 0). -/
def get_leader_fitness (leader : Option String) (log : List SwarmMsg) : ℚ :=
  match leader with
  | none => 0
  | some l =>
      match log.reverse.find? (fun m =>
          decide (m.bot_id = l) && decide (m.type = 0x01)) with
      | some m => m.payload.fitnessScore.getD 0
      | none => 0

/-- `_handle_leadership_election`, applied to the state in which the election
message has already been appended to `swarm_messages`: mark the election
active and, when the payload carries both `generation` and `fitnessScore`,
replace the leader iff no leader is set or the challenger fitness is strictly
greater than the current leader fitness. -/
def handle_leadership_election (st : Monitor) (bot : String)
    (payload : SwarmPayload) : Monitor :=
  let st1 := { st with leadership_election_active := true }
  if payload.generation.isSome ∧ payload.fitnessScore.isSome then
    if st1.leader_bot = none
        ∨ payload.fitnessScore.getD 0 > get_leader_fitness st1.leader_bot st1.swarm_messages then
      { st1 with leader_bot := some bot }
    else st1
  else st1

/-- The summary dict appended to `active_tasks` by `_handle_task_assignment`. -/
def task_summary (bot : String) (payload : SwarmPayload) : TaskSummary :=
  { id := payload.taskId, type := payload.taskType,
    priority := payload.taskPriority, assigned_by := bot, status := "active" }

/-- `_handle_task_assignment`: record the first assignment for the task id in
`task_assignments` (later writers are ignored), then replace any `active_tasks`
entry with the same id by the fresh summary, appended at the end. -/
def handle_task_assignment (st : Monitor) (bot : String) (payload : SwarmPayload)
    (now : ℚ) : Monitor :=
  let task_id := payload.taskId
  let assignments :=
    if (st.task_assignments.lookup task_id).isSome then st.task_assignments
    else st.task_assignments ++
      [(task_id, { assigned_by := bot, task_type := payload.taskType,
                   priority := payload.taskPriority, created_time := now,
                   status := "assigned", target_bot := payload.targetBot })]
  { st with
      task_assignments := assignments,
      active_tasks := (st.active_tasks.filter (fun t => !decide (t.id = task_id)))
        ++ [task_summary bot payload] }

/-- `_handle_formation_request`: log the change in the capacity-50
`formation_history` deque and set this bot's current formation. -/
def handle_formation_request (st : Monitor) (bot : String)
    (payload : SwarmPayload) (now : ℚ) : Monitor :=
  { st with
      formation_history := capAppend 50 st.formation_history
        { timestamp := now, requested_by := bot,
          formation_type := payload.formationType, scale := payload.scale },
      active_formations := setAssoc st.active_formations bot
        { type := payload.formationType, scale := payload.scale, updated := now } }

/-- The zone dict built by `_handle_area_claim` (key `claimed_time` present). -/
def area_info (bot : String) (payload : SwarmPayload) (now : ℚ) : Zone :=
  { bot_id := bot, center_x := payload.centerX, center_y := payload.centerY,
    width := payload.width, height := payload.height,
    strategy := payload.strategy, claimed_time := some now }

/-- `_handle_area_claim`: append the zone, then keep only the most recent 20
entries (`zones[-20:]` after the length check — exactly a capped append). -/
def handle_area_claim (st : Monitor) (bot : String) (payload : SwarmPayload)
    (now : ℚ) : Monitor :=
  { st with exploration_zones :=
      capAppend 20 st.exploration_zones (area_info bot payload now) }

/-- `_handle_genome_share`: bump `behavior_patterns['genome_sharing']`
(a `defaultdict(int)`, so an absent key counts as 0). -/
def handle_genome_share (st : Monitor) : Monitor :=
  let count := (st.behavior_patterns.lookup "genome_sharing").getD 0
  { st with behavior_patterns :=
      setAssoc st.behavior_patterns "genome_sharing" (count + 1) }

/-- `process_swarm_message`: append the raw message to the capacity-500 log,
then dispatch on `header.messageType`.  Unrecognised codes only produce the
generic analysis response and leave the rest of the state unchanged. -/
def process_swarm_message (st : Monitor) (bot : String) (message : FrameData)
    (now : ℚ) : Monitor :=
  let msg_type := match message.header with
    | some h => h.messageType
    | none => 0
  let sm : SwarmMsg :=
    { bot_id := bot, timestamp := now, type := msg_type,
      payload := message.payload,
      priority := match message.header with
        | some h => h.priority
        | none => 1 }
  let st1 := { st with swarm_messages := capAppend 500 st.swarm_messages sm }
  if msg_type = 0x01 then handle_discovery st1 bot message.payload now
  else if msg_type = 0x30 then handle_leadership_election st1 bot message.payload
  else if msg_type = 0x20 then handle_task_assignment st1 bot message.payload now
  else if msg_type = 0x22 then handle_formation_request st1 bot message.payload now
  else if msg_type = 0x32 then handle_area_claim st1 bot message.payload now
  else if msg_type = 0x40 then handle_genome_share st1
  else st1

/-- `_calculate_formation_stability`: 1.0 with fewer than two recorded changes,
otherwise `max(0, 1 - recentChanges/10)` counting changes in the last 60 s. -/
def calculate_formation_stability (fh : List FormationChange) (now : ℚ) : ℚ :=
  if fh.length < 2 then 1
  else
    let recent_changes := (fh.filter (fun f => decide (now - f.timestamp < 60))).length
    max 0 (1 - (recent_changes : ℚ) / 10)

/-- The left-to-right evaluation of `[z for z in zones if now - z['claimed_time'] < 300]`:
the subscript `z['claimed_time']` raises `KeyError` on the first zone lacking
the key, modelled as `Except.error`. -/
def recent_zones : List Zone → ℚ → Except String (List Zone)
  | [], _ => .ok []
  | z :: zs, now =>
      match z.claimed_time with
      | none => .error "claimed_time"
      | some t => do
          let rest ← recent_zones zs now
          .ok (if now - t < 300 then z :: rest else rest)

/-- `_calculate_coverage_efficiency`: 0.0 with no zones, otherwise
`min(1, recentZones/5)` over the last 300 s; propagates the `KeyError` raised
by the subscript access on zones lacking `claimed_time`. -/
def calculate_coverage_efficiency (zones : List Zone) (now : ℚ) :
    Except String ℚ :=
  if zones = [] then .ok 0
  else do
    let recent ← recent_zones zones now
    .ok (min 1 ((recent.length : ℚ) / 5))

/-- `_calculate_swarm_coherence`: 0.0 with no peer relationships, otherwise the
mean of the activity, formation-stability and task sub-scores. -/
def calculate_swarm_coherence (st : Monitor) (now : ℚ) : ℚ :=
  if st.peer_relationships = [] then 0
  else
    let recent_activity :=
      (st.swarm_messages.filter (fun m => decide (now - m.timestamp < 30))).length
    let activity_score := min 1 ((recent_activity : ℚ) / 20)
    let formation_score := calculate_formation_stability st.formation_history now
    let task_score := min 1 ((st.active_tasks.length : ℚ) / 5)
    (activity_score + formation_score + task_score) / 3

/-- The coherence formula as the spec states it (for comparison with
`calculate_swarm_coherence`): the plain arithmetic mean of the three
sub-scores, with no special case. -/
def spec_coherence_mean (st : Monitor) (now : ℚ) : ℚ :=
  let recent_activity :=
    (st.swarm_messages.filter (fun m => decide (now - m.timestamp < 30))).length
  let activity_score := min 1 ((recent_activity : ℚ) / 20)
  let formation_score := calculate_formation_stability st.formation_history now
  let task_score := min 1 ((st.active_tasks.length : ℚ) / 5)
  (activity_score + formation_score + task_score) / 3

/-- The `BotStatus` dataclass (per-bot status record of the server). -/
structure BotStatus where
  bot_id : String
  last_seen : ℚ
  ip_address : String
  generation : Int := 0
  fitness_score : ℚ := 0
  is_online : Bool := true
  message_count : Nat := 0
  error_count : Nat := 0
deriving DecidableEq

/-- One frame received on a bot websocket: either it parses to a JSON dict or
`json.loads` raises (`JSONDecodeError`). -/
inductive Frame where
  | malformed
  | parsed (data : FrameData)
deriving DecidableEq

/-- What the per-frame body of `handle_bot_connection` does to the receive
loop: every exception is caught inside the loop, so the loop always continues
to the next frame. -/
inductive LoopAction where
  | continueLoop
deriving DecidableEq

/-- The `MicroBotServer` state touched by the ingestion pipeline.  Sockets are
abstracted away: `bot_clients` keeps only the registered bot ids, and the
frames forwarded to PC clients are returned by the step function instead of
being sent. -/
structure ServerState where
  bot_clients : List String := []
  bot_status : List (String × BotStatus) := []
  filter_rules : FilterRules := {}
  message_history : List (String × List BotMessage) := []
  swarm : Monitor := {}
  messages_processed : Nat := 0
  messages_filtered : Nat := 0
  messages_forwarded : Nat := 0
  swarm_messages_analyzed : Nat := 0
deriving DecidableEq

/-- `SignalFilter.process_message` at the server level: fetch the sender's
deque from the `defaultdict` (empty when absent), run the per-bot step, and
store the updated deque back. -/
def filter_process (rules : FilterRules) (history : List (String × List BotMessage))
    (m : BotMessage) (now : ℚ) : BotMessage × List (String × List BotMessage) :=
  let hist := (history.lookup m.bot_id).getD []
  let r := process_message rules hist m now
  (r.1, setAssoc history m.bot_id r.2)

/-- `self.bot_status[bot_id].error_count += 1`. -/
def inc_error (bs : List (String × BotStatus)) (b : String) :
    List (String × BotStatus) :=
  bs.map (fun p =>
    if p.1 = b then (p.1, { p.2 with error_count := p.2.error_count + 1 }) else p)

/-- `message_count += 1` and `last_seen = time.time()` for the sender. -/
def touch_status (bs : List (String × BotStatus)) (b : String) (now : ℚ) :
    List (String × BotStatus) :=
  bs.map (fun p =>
    if p.1 = b then
      (p.1, { p.2 with message_count := p.2.message_count + 1, last_seen := now })
    else p)

/-- Update `generation` / `fitness_score` of the sender's record from the
top-level keys of a forwarded (unfiltered) message. -/
def update_evolution_status (bs : List (String × BotStatus)) (b : String)
    (data : FrameData) : List (String × BotStatus) :=
  bs.map (fun p =>
    if p.1 = b then
      (p.1, { p.2 with
          generation := (data.generation).getD p.2.generation,
          fitness_score := (data.fitness_score).getD p.2.fitness_score })
    else p)

/-- The `analysis` tag of the dict returned by each swarm handler, keyed by
message type. -/
def analysis_tag (msg_type : Nat) : String :=
  if msg_type = 0x01 then "discovery_processed"
  else if msg_type = 0x30 then "leadership_election"
  else if msg_type = 0x20 then "task_assignment"
  else if msg_type = 0x22 then "formation_change"
  else if msg_type = 0x32 then "area_claim"
  else if msg_type = 0x40 then "genome_sharing"
  else "unknown_message"

/-- One iteration of the `async for` body of `handle_bot_connection`, given the
connection's current `bot_id` (None until the first parseable frame).  Returns
the new server state, the connection's `bot_id`, the messages forwarded to PC
clients by this step, and the loop action.  A malformed frame is logged and
discarded: the sender's `error_count` is bumped only when `bot_id` is already
known, and the loop continues either way.  (The in-place `swarm_analysis` dict
mutation is applied to the forwarded copy; its aliasing back into the stored
history entry is not tracked.) -/
def handle_bot_frame (srv : ServerState) (conn_bot : Option String) (ip : String)
    (f : Frame) (now : ℚ) : ServerState × Option String × List BotMessage × LoopAction :=
  match f with
  | .malformed =>
      match conn_bot with
      | some b => ({ srv with bot_status := inc_error srv.bot_status b },
                   some b, [], .continueLoop)
      | none => (srv, none, [], .continueLoop)
  | .parsed data =>
      let bid := match conn_bot with
        | some b => b
        | none => data.bot_id.getD ("Bot-" ++ ip)
      let fresh : BotStatus :=
        { bot_id := bid, last_seen := now, ip_address := ip, generation := 0,
          fitness_score := 0, is_online := true, message_count := 0,
          error_count := 0 }
      let srv1 := match conn_bot with
        | some _ => srv
        | none =>
            { srv with
                bot_clients := if srv.bot_clients.contains bid then srv.bot_clients
                  else srv.bot_clients ++ [bid],
                bot_status := setAssoc srv.bot_status bid fresh }
      let bm : BotMessage :=
        { bot_id := bid, message_type := data.type.getD "unknown",
          timestamp := now, data := data, priority := data.priority.getD 1 }
      let fr := filter_process srv1.filter_rules srv1.message_history bm now
      let is_swarm := data.header.isSome
      let msg_type := match data.header with
        | some h => h.messageType
        | none => 0
      let processed := if is_swarm then
          { fr.1 with data := { fr.1.data with
              swarm_analysis := some (analysis_tag msg_type) } }
        else fr.1
      let srv2 :=
        { srv1 with
            message_history := fr.2,
            swarm := if is_swarm then process_swarm_message srv1.swarm bid data now
              else srv1.swarm,
            swarm_messages_analyzed := if is_swarm then
              srv1.swarm_messages_analyzed + 1 else srv1.swarm_messages_analyzed,
            messages_processed := srv1.messages_processed + 1,
            bot_status := touch_status srv1.bot_status bid now }
      if processed.filtered then
        ({ srv2 with messages_filtered := srv2.messages_filtered + 1 },
         some bid, [], .continueLoop)
      else
        ({ srv2 with
            bot_status := update_evolution_status srv2.bot_status bid data,
            messages_forwarded := srv2.messages_forwarded + 1 },
         some bid, [processed], .continueLoop)

/-- One pass of the `status_monitor` loop body over `bot_status.items()`:
records stale for more than 30 s that are still online are flipped offline and
produce one `bot_offline` broadcast each (returned as the list of notified bot
ids, in iteration order). -/
def status_monitor_sweep (now : ℚ) :
    List (String × BotStatus) → List (String × BotStatus) × List String
  | [] => ([], [])
  | (k, s) :: rest =>
      let upd :=
        if 30 < now - s.last_seen then
          if s.is_online then ({ s with is_online := false }, [k])
          else (s, [])
        else (s, [])
      let r := status_monitor_sweep now rest
      ((k, upd.1) :: r.1, upd.2 ++ r.2)

/-- The `zone_data` dict of an operator `assign_exploration_zone` command;
every field is read with a `.get` default. -/
structure ZoneData where
  center_x : Option ℚ := none
  center_y : Option ℚ := none
  width : Option ℚ := none
  height : Option ℚ := none
  strategy : Option Nat := none
deriving DecidableEq

/-- The zone dict built by `assign_exploration_zone` and appended to
`exploration_zones`: it carries `assigned_time` and no `claimed_time` key. -/
def assigned_zone_info (target_bot : String) (zd : ZoneData) (now : ℚ) : Zone :=
  { bot_id := target_bot, center_x := zd.center_x.getD 0,
    center_y := zd.center_y.getD 0, width := zd.width.getD 5,
    height := zd.height.getD 5, strategy := zd.strategy.getD 1,
    assigned_time := some now }

/-- A bot record that is online but last seen at time 0 (stale at time 31). -/
def staleStatusA : BotStatus :=
  { bot_id := "A", last_seen := 0, ip_address := "10.0.0.7",
    message_count := 5 }

/-- A server state that knows bot `A` (e.g. from an earlier connection). -/
def serverKnowingA : ServerState :=
  { bot_status := [("A", staleStatusA)] }

/-- First message of the claim C2 scenario: kind `status`, payload fixed. -/
def repeatMsg0 : BotMessage :=
  { bot_id := "W", message_type := "status", timestamp := 0,
    data := { bot_id := some "W", type := some "status" } }

/-- Identical repeat of `repeatMsg0`, arriving 3 s later — outside the default
2 s duplicate window. -/
def repeatMsg3 : BotMessage := { repeatMsg0 with timestamp := 3 }

/-- Discovery frame from bot `A` carrying fitness 0.5 (claim C4 scenario). -/
def discoveryFrameA : FrameData :=
  { header := some { messageType := 0x01, priority := 1 },
    payload := { fitnessScore := some (1/2), currentRole := 1 } }

/-- Election frame from bot `B` carrying generation 3 and fitness 0.8. -/
def electionFrameB : FrameData :=
  { header := some { messageType := 0x30, priority := 1 },
    payload := { generation := some 3, fitnessScore := some (4/5) } }

/-- Monitor state after bot `A`'s discovery message at time 0. -/
def monitorAfterA : Monitor := process_swarm_message {} "A" discoveryFrameA 0

/-- A task-assignment frame (`messageType = 0x20`) with header priority 1. -/
def assignFrame (payload : SwarmPayload) : FrameData :=
  { header := some { messageType := 0x20, priority := 1 }, payload := payload }

/-- Fold a sequence of task-assignment events (sender, payload, arrival time)
through `process_swarm_message`. -/
def runAssignments (st : Monitor) : List (String × SwarmPayload × ℚ) → Monitor
  | [] => st
  | (bot, payload, now) :: rest =>
      runAssignments (process_swarm_message st bot (assignFrame payload) now) rest

/-- A concrete first-writer task record for task id 7 (claim C5 witness). -/
def taskRec7 : TaskRecord :=
  { assigned_by := "A", task_type := 2, priority := 1, created_time := 0,
    target_bot := "W" }

/-- Monitor state that already holds the first assignment for task id 7. -/
def monitorWithTask7 : Monitor := { task_assignments := [(7, taskRec7)] }

/-- Monitor state with a single known peer (used to instantiate the amended
coherence claim). -/
def monitorOnePeer : Monitor :=
  { peer_relationships := [("A", { first_seen := 0, last_discovery := 0 })] }

/-- An element just appended is always a member of the capped deque, as long as
the capacity is positive: eviction only removes from the front. -/
theorem self_mem_capAppend (cap : Nat) (l : List α) (x : α) (hcap : 0 < cap) :
    x ∈ capAppend cap l x := by
  simp only [capAppend]
  split
  · have hle : (l ++ [x]).length - cap ≤ l.length := by
      simp only [List.length_append, List.length_singleton]
      omega
    rw [List.drop_append_of_le_length hle]
    exact List.mem_append_right _ (List.mem_singleton.mpr rfl)
  · exact List.mem_append_right _ (List.mem_singleton.mpr rfl)

/-- A capped deque never grows beyond its capacity. -/
theorem capAppend_length_le (cap : Nat) (l : List α) (x : α) :
    (capAppend cap l x).length ≤ cap := by
  simp only [capAppend]
  split
  · simp only [List.length_drop]
    omega
  · simp only [List.length_append, List.length_singleton] at *
    omega

/-- The capped deque is a suffix of the plain append: eviction drops oldest
elements only. -/
theorem capAppend_suffix (cap : Nat) (l : List α) (x : α) :
    (capAppend cap l x) <:+ (l ++ [x]) := by
  simp only [capAppend]
  split
  · exact List.drop_suffix _ _
  · exact List.suffix_refl _

/-- Below capacity, the capped append is a plain append. -/
theorem capAppend_of_lt (cap : Nat) (l : List α) (x : α) (h : l.length < cap) :
    capAppend cap l x = l ++ [x] := by
  simp only [capAppend]
  rw [if_neg]
  simp only [List.length_append, List.length_singleton]
  omega

/-- Appending a non-discovery message to the swarm log does not change the
leader-fitness lookup, which scans only for messages of type `0x01`. -/
theorem get_leader_fitness_append (leader : Option String) (log : List SwarmMsg)
    (m : SwarmMsg) (hm : m.type ≠ 0x01) :
    get_leader_fitness leader (log ++ [m]) = get_leader_fitness leader log := by
  cases leader with
  | none => rfl
  | some l =>
      simp only [get_leader_fitness, List.reverse_append, List.reverse_singleton,
        List.singleton_append]
      rw [List.find?_cons_of_neg]
      simp [hm]

/-- A key bound in an association list keeps its binding under appends. -/
theorem lookup_append_of_some [BEq α] (l l₂ : List (α × β)) (k : α) (v : β)
    (h : l.lookup k = some v) : (l ++ l₂).lookup k = some v := by
  induction l with
  | nil => simp [List.lookup] at h
  | cons a t ih =>
      simp only [List.cons_append, List.lookup] at h ⊢
      cases hk : (k == a.1) with
      | true => simpa [hk] using h
      | false =>
          rw [hk] at h
          exact ih h

/-- C1: the spec expects eleven same-kind messages within 0.5 s under
`rate_limit = 10` to yield exactly 10 forwarded and 1 filtered.  The code marks
all 11 as filtered: `process_message` appends each message to the history
before `should_filter` runs, so the duplicate check matches every message
against itself (age 0 < 2 s, same kind, same data). -/
theorem C1_burst_all_filtered :
    ((runFilter {} [] burstMessages).1.countP (fun m => m.filtered)) = 11
    ∧ ((runFilter {} [] burstMessages).1.countP (fun m => !m.filtered)) = 0 := by
  constructor <;> with_unfolding_all rfl

/-- C2: a message identical in kind and payload to one seen 3 s earlier —
strictly outside the default 2 s duplicate window, with the rate limit far from
reached — is still filtered, again because the message matches itself in the
history.  The spec expects it to be kept. -/
theorem C2_repeat_after_window_filtered :
    repeatMsg3.message_type = repeatMsg0.message_type
    ∧ repeatMsg3.data = repeatMsg0.data
    ∧ FilterRules.duplicate_window {} < repeatMsg3.timestamp - repeatMsg0.timestamp
    ∧ (process_message {} (process_message {} [] repeatMsg0 0).2 repeatMsg3 3).1.filtered
        = true := by
  refine ⟨rfl, rfl, by norm_num [repeatMsg0, repeatMsg3, FilterRules.duplicate_window],
    by with_unfolding_all rfl⟩

/-- C3: `process_message` appends the message to the per-bot history before the
keep/drop decision is computed — the `filtered` flag equals `should_filter`
evaluated over a history already containing the message — and the processed
message (dropped or not) is a member of the resulting history, so it is
consulted by all later rate-limit and duplicate checks for that bot. -/
theorem C3_history_updated_before_decision (rules : FilterRules)
    (hist : List BotMessage) (m : BotMessage) (now : ℚ) :
    (process_message rules hist m now).1.filtered
        = should_filter rules (capAppend 100 hist m) m now
    ∧ (process_message rules hist m now).1 ∈ (process_message rules hist m now).2 := by
  exact ⟨rfl, self_mem_capAppend 100 hist _ (by norm_num)⟩

/-- C4: on an election message carrying `generation` and `fitnessScore`, the
leader becomes the sender exactly when no leader is set or the sender's
fitness strictly exceeds the fitness of the current leader's most recent
discovery message in the swarm log (0 when none exists).  The hypothesis on
the log length rules out eviction of the oldest entry by this append. -/
theorem C4_leader_replacement (st : Monitor) (bot : String) (hp : Int)
    (p : SwarmPayload) (now : ℚ)
    (hgen : p.generation.isSome = true) (hfit : p.fitnessScore.isSome = true)
    (hlen : st.swarm_messages.length < 500) :
    (process_swarm_message st bot
        { header := some { messageType := 0x30, priority := hp }, payload := p }
        now).leader_bot
      = if st.leader_bot = none
            ∨ p.fitnessScore.getD 0 > get_leader_fitness st.leader_bot st.swarm_messages
        then some bot else st.leader_bot := by
  have hstep : process_swarm_message st bot
      { header := some { messageType := 0x30, priority := hp }, payload := p } now
      = handle_leadership_election
          { st with swarm_messages := st.swarm_messages ++
              [{ bot_id := bot, timestamp := now, type := 0x30, payload := p,
                 priority := hp }] } bot p := by
    show handle_leadership_election
        { st with swarm_messages := (capAppend 500 st.swarm_messages
            { bot_id := bot, timestamp := now, type := 0x30, payload := p,
              priority := hp }) } bot p = _
    rw [capAppend_of_lt 500 st.swarm_messages _ hlen]
  rw [hstep]
  simp only [handle_leadership_election]
  rw [if_pos ⟨hgen, hfit⟩]
  rw [get_leader_fitness_append st.leader_bot st.swarm_messages
    { bot_id := bot, timestamp := now, type := 0x30, payload := p, priority := hp }
    (by show (0x30 : Nat) ≠ 0x01; decide)]
  by_cases hc : st.leader_bot = none
      ∨ p.fitnessScore.getD 0 > get_leader_fitness st.leader_bot st.swarm_messages
  · rw [if_pos hc, if_pos hc]
  · rw [if_neg hc, if_neg hc]

/-- Witness for C4: the spec's own scenario — bot `A` sends a discovery with
fitness 0.5 at time 0, bot `B` an election with fitness 0.8 at time 1; the
leader becomes `B`. -/
theorem C4_leader_replacement_witness :
    electionFrameB.payload.generation.isSome = true
    ∧ electionFrameB.payload.fitnessScore.isSome = true
    ∧ monitorAfterA.swarm_messages.length < 500
    ∧ (process_swarm_message monitorAfterA "B" electionFrameB 1).leader_bot = some "B" := by
  refine ⟨rfl, rfl, by decide, ?_⟩
  have h := C4_leader_replacement monitorAfterA "B" 1 electionFrameB.payload 1
    rfl rfl (by decide)
  rw [show electionFrameB
      = { header := some { messageType := 0x30, priority := 1 },
          payload := electionFrameB.payload } from rfl]
  rw [h, if_pos (Or.inl (by decide))]

/-- Processing a task-assignment frame rewrites `active_tasks` to the
duplicate-free list followed by the fresh summary. -/
theorem process_assign_active_tasks (st : Monitor) (bot : String)
    (p : SwarmPayload) (now : ℚ) :
    (process_swarm_message st bot (assignFrame p) now).active_tasks
      = (st.active_tasks.filter (fun t => !decide (t.id = p.taskId)))
        ++ [task_summary bot p] := rfl

/-- Processing a task-assignment frame extends `task_assignments` only when the
task id is unseen. -/
theorem process_assign_task_assignments (st : Monitor) (bot : String)
    (p : SwarmPayload) (now : ℚ) :
    (process_swarm_message st bot (assignFrame p) now).task_assignments
      = if (st.task_assignments.lookup p.taskId).isSome then st.task_assignments
        else st.task_assignments ++
          [(p.taskId, { assigned_by := bot, task_type := p.taskType,
                        priority := p.taskPriority, created_time := now,
                        status := "assigned", target_bot := p.targetBot })] := rfl

/-- One assignment step preserves duplicate-freedom of the task ids. -/
theorem assign_step_ids_nodup (l : List TaskSummary) (tid : Nat)
    (s : TaskSummary) (hs : s.id = tid)
    (h : (l.map TaskSummary.id).Nodup) :
    (((l.filter (fun t => !decide (t.id = tid))) ++ [s]).map TaskSummary.id).Nodup := by
  rw [List.map_append]
  refine List.Nodup.append ?_ (List.nodup_singleton _) ?_
  · exact ((List.filter_sublist _).map TaskSummary.id).nodup h
  · intro a ha hb
    simp only [List.map_singleton, List.mem_singleton] at hb
    rcases List.mem_map.mp ha with ⟨t, ht, rfl⟩
    have := List.of_mem_filter ht
    simp only [Bool.not_eq_eq_eq_not, Bool.not_true, decide_eq_false_iff_not] at this
    exact this (hb.trans hs)

/-- Any sequence of assignment events keeps the task ids duplicate-free. -/
theorem runAssignments_ids_nodup (evs : List (String × SwarmPayload × ℚ)) :
    ∀ st : Monitor, ((st.active_tasks.map TaskSummary.id)).Nodup →
    (((runAssignments st evs).active_tasks).map TaskSummary.id).Nodup := by
  induction evs with
  | nil => intro st h; exact h
  | cons e rest ih =>
      intro st h
      rcases e with ⟨bot, p, now⟩
      refine ih _ ?_
      rw [process_assign_active_tasks]
      exact assign_step_ids_nodup st.active_tasks p.taskId (task_summary bot p) rfl h

/-- C5: over any sequence of task-assignment messages, `active_tasks` never
holds two entries with the same task id; after each assignment the entry for
that id is the last element of the list; and the `task_assignments` record for
an id is never overwritten by a later assignment, so the first writer's data
is kept. -/
theorem C5_task_assignment_invariants :
    (∀ evs : List (String × SwarmPayload × ℚ),
        (((runAssignments {} evs).active_tasks).map TaskSummary.id).Nodup)
    ∧ (∀ (st : Monitor) (bot : String) (p : SwarmPayload) (now : ℚ),
        ((process_swarm_message st bot (assignFrame p) now).active_tasks).getLast?
          = some (task_summary bot p))
    ∧ (∀ (st : Monitor) (bot : String) (p : SwarmPayload) (now : ℚ)
        (tid : Nat) (r : TaskRecord),
        st.task_assignments.lookup tid = some r →
        ((process_swarm_message st bot (assignFrame p) now).task_assignments).lookup tid
          = some r) := by
  refine ⟨?_, ?_, ?_⟩
  · intro evs
    exact runAssignments_ids_nodup evs {} (by simp)
  · intro st bot p now
    rw [process_assign_active_tasks]
    exact List.getLast?_concat _
  · intro st bot p now tid r h
    rw [process_assign_task_assignments]
    split
    · exact h
    · exact lookup_append_of_some _ _ _ _ h

/-- Witness for C5: starting from a state holding the first assignment for
task id 7, a later assignment for the same id leaves the stored record
unchanged, and the nodup and last-entry parts hold at concrete inputs. -/
theorem C5_task_assignment_invariants_witness :
    ((((runAssignments {} [("A", { taskId := 7 }, 0), ("B", { taskId := 7 }, 1)]).active_tasks).map TaskSummary.id).Nodup)
    ∧ ((process_swarm_message monitorWithTask7 "B" (assignFrame { taskId := 7 }) 1).active_tasks).getLast?
        = some (task_summary "B" { taskId := 7 })
    ∧ monitorWithTask7.task_assignments.lookup 7 = some taskRec7
    ∧ ((process_swarm_message monitorWithTask7 "B" (assignFrame { taskId := 7 }) 1).task_assignments).lookup 7
        = some taskRec7 :=
  ⟨C5_task_assignment_invariants.1 [("A", { taskId := 7 }, 0), ("B", { taskId := 7 }, 1)],
   C5_task_assignment_invariants.2.1 monitorWithTask7 "B" { taskId := 7 } 1,
   rfl,
   C5_task_assignment_invariants.2.2 monitorWithTask7 "B" { taskId := 7 } 1 7 taskRec7 rfl⟩

/-- Processing an area-claim frame performs exactly a capacity-20 capped
append of the new zone record. -/
theorem process_area_claim_zones (st : Monitor) (bot : String) (hp : Int)
    (p : SwarmPayload) (now : ℚ) :
    (process_swarm_message st bot
        { header := some { messageType := 0x32, priority := hp }, payload := p }
        now).exploration_zones
      = capAppend 20 st.exploration_zones (area_info bot p now) := rfl

/-- C6: after any area-claim message the zone list has at most 20 entries, is a
suffix of the previous list with the new zone appended (oldest entries dropped
first), and still contains the fresh zone. -/
theorem C6_exploration_zones_bounded (st : Monitor) (bot : String) (hp : Int)
    (p : SwarmPayload) (now : ℚ) :
    ((process_swarm_message st bot
        { header := some { messageType := 0x32, priority := hp }, payload := p }
        now).exploration_zones).length ≤ 20
    ∧ (process_swarm_message st bot
        { header := some { messageType := 0x32, priority := hp }, payload := p }
        now).exploration_zones <:+ (st.exploration_zones ++ [area_info bot p now])
    ∧ area_info bot p now ∈ (process_swarm_message st bot
        { header := some { messageType := 0x32, priority := hp }, payload := p }
        now).exploration_zones := by
  refine ⟨?_, ?_, ?_⟩
  · rw [process_area_claim_zones]
    exact capAppend_length_le 20 _ _
  · rw [process_area_claim_zones]
    exact capAppend_suffix 20 _ _
  · rw [process_area_claim_zones]
    exact self_mem_capAppend 20 _ _ (by norm_num)

/-- C7 fails as stated: in the initial aggregator state (no peer
relationships) the code returns 0.0 from `_calculate_swarm_coherence`, while
the arithmetic mean of the three sub-scores is 1/3 (formation stability
defaults to 1.0 with fewer than two history entries). -/
theorem C7_coherence_counterexample :
    calculate_swarm_coherence {} 0 = 0
    ∧ spec_coherence_mean {} 0 = 1/3
    ∧ calculate_swarm_coherence {} 0 ≠ spec_coherence_mean {} 0 := by
  refine ⟨rfl, ?_, ?_⟩
  · with_unfolding_all decide
  · with_unfolding_all decide

/-- C7 amended: whenever at least one peer relationship exists, the computed
swarm coherence equals the arithmetic mean of the activity score, the
formation-stability score and the task score. -/
theorem C7_coherence_is_mean (st : Monitor) (now : ℚ)
    (h : st.peer_relationships ≠ []) :
    calculate_swarm_coherence st now = spec_coherence_mean st now := by
  simp only [calculate_swarm_coherence, spec_coherence_mean]
  rw [if_neg h]

/-- Witness for the amended C7 at a state with one known peer. -/
theorem C7_coherence_is_mean_witness :
    monitorOnePeer.peer_relationships ≠ []
    ∧ calculate_swarm_coherence monitorOnePeer 0 = spec_coherence_mean monitorOnePeer 0 :=
  ⟨by decide, C7_coherence_is_mean monitorOnePeer 0 (by decide)⟩

/-- Incrementing the sender's error counter updates exactly its binding. -/
theorem inc_error_lookup (bs : List (String × BotStatus)) (b : String) (r : BotStatus)
    (h : bs.lookup b = some r) :
    (inc_error bs b).lookup b = some { r with error_count := r.error_count + 1 } := by
  induction bs with
  | nil => simp [List.lookup] at h
  | cons a t ih =>
      rcases a with ⟨k, s⟩
      by_cases hkb : k = b
      · subst hkb
        simp only [List.lookup, beq_self_eq_true] at h
        injection h with h'
        subst h'
        have hstep : inc_error ((k, s) :: t) k
            = (k, { s with error_count := s.error_count + 1 }) :: inc_error t k := by
          simp only [inc_error, List.map_cons, eq_self_iff_true, if_true]
        rw [hstep]
        simp only [List.lookup, beq_self_eq_true]
      · have hbk : (b == k) = false := beq_eq_false_iff_ne.mpr (fun e => hkb e.symm)
        simp only [List.lookup, hbk] at h
        have hstep : inc_error ((k, s) :: t) b = (k, s) :: inc_error t b := by
          simp only [inc_error, List.map_cons]
          rw [if_neg hkb]
        rw [hstep]
        simp only [List.lookup, hbk]
        exact ih h

/-- C8 fails as stated: a malformed first frame on a fresh connection (before
any frame identified the sender) is discarded without incrementing anyone's
`error_count` — here the sending bot `A` is known to the server from an
earlier connection, yet its counter stays 0 because the handler guards the
increment with `if bot_id:`. -/
theorem C8_parse_error_counterexample :
    (handle_bot_frame serverKnowingA none "10.0.0.7" .malformed 1)
      = (serverKnowingA, none, [], .continueLoop)
    ∧ ((serverKnowingA.bot_status.lookup "A").map BotStatus.error_count) = some 0
    ∧ (((handle_bot_frame serverKnowingA none "10.0.0.7" .malformed 1).1.bot_status.lookup "A").map
        BotStatus.error_count) = some 0 :=
  ⟨rfl, rfl, rfl⟩

/-- C8 amended: on a connection whose sender is already identified, a frame
that fails to parse is discarded — nothing is forwarded, the filter history
and processed-message counters are untouched — the sender's `error_count` is
incremented, and the receive loop continues. -/
theorem C8_parse_error_handling (srv : ServerState) (b : String) (ip : String)
    (now : ℚ) (r : BotStatus) (hb : srv.bot_status.lookup b = some r) :
    ((handle_bot_frame srv (some b) ip .malformed now).1.bot_status.lookup b
        = some { r with error_count := r.error_count + 1 })
    ∧ (handle_bot_frame srv (some b) ip .malformed now).1.message_history
        = srv.message_history
    ∧ (handle_bot_frame srv (some b) ip .malformed now).1.messages_processed
        = srv.messages_processed
    ∧ (handle_bot_frame srv (some b) ip .malformed now).2.1 = some b
    ∧ (handle_bot_frame srv (some b) ip .malformed now).2.2.1 = []
    ∧ (handle_bot_frame srv (some b) ip .malformed now).2.2.2 = .continueLoop := by
  exact ⟨inc_error_lookup srv.bot_status b r hb, rfl, rfl, rfl, rfl, rfl⟩

/-- Witness for the amended C8: bot `A` is identified on its connection; a
malformed frame bumps its error counter from 0 to 1 and the loop continues. -/
theorem C8_parse_error_handling_witness :
    serverKnowingA.bot_status.lookup "A" = some staleStatusA
    ∧ ((handle_bot_frame serverKnowingA (some "A") "10.0.0.7" .malformed 1).1.bot_status.lookup "A"
        = some { staleStatusA with error_count := staleStatusA.error_count + 1 })
    ∧ (handle_bot_frame serverKnowingA (some "A") "10.0.0.7" .malformed 1).2.2.2
        = .continueLoop :=
  ⟨rfl,
   (C8_parse_error_handling serverKnowingA "A" "10.0.0.7" 1 staleStatusA rfl).1,
   (C8_parse_error_handling serverKnowingA "A" "10.0.0.7" 1 staleStatusA rfl).2.2.2.2.2⟩

/-- The notifications of one sweep are exactly the ids of the records that
were stale and still online, in iteration order. -/
theorem sweep_notifications (now : ℚ) (bs : List (String × BotStatus)) :
    (status_monitor_sweep now bs).2
      = (bs.filter (fun p => decide (30 < now - p.2.last_seen) && p.2.is_online)).map
          Prod.fst := by
  induction bs with
  | nil => rfl
  | cons a t ih =>
      rcases a with ⟨k, s⟩
      simp only [status_monitor_sweep, List.filter_cons]
      by_cases h1 : 30 < now - s.last_seen
      · cases h2 : s.is_online
        · simp [h1, h2, ih]
        · simp [h1, h2, ih]
      · simp [h1, ih]

/-- One sweep maps each record to itself, flipped offline when it was stale
and online. -/
theorem sweep_records (now : ℚ) (bs : List (String × BotStatus)) :
    (status_monitor_sweep now bs).1
      = bs.map (fun p =>
          (p.1, if decide (30 < now - p.2.last_seen) && p.2.is_online then
            { p.2 with is_online := false } else p.2)) := by
  induction bs with
  | nil => rfl
  | cons a t ih =>
      rcases a with ⟨k, s⟩
      simp only [status_monitor_sweep, List.map_cons]
      by_cases h1 : 30 < now - s.last_seen
      · cases h2 : s.is_online
        · simp [h1, h2, ih]
        · simp [h1, h2, ih]
      · simp [h1, ih]

/-- With duplicate-free keys, the id of a given record occurs in a filtered
key list exactly when the record satisfies the predicate. -/
theorem count_map_fst_filter (bs : List (String × BotStatus))
    (q : String × BotStatus → Bool) (b : String) (r : BotStatus)
    (hnd : (bs.map Prod.fst).Nodup) (hmem : (b, r) ∈ bs) :
    ((bs.filter q).map Prod.fst).count b = if q (b, r) then 1 else 0 := by
  induction bs with
  | nil => cases hmem
  | cons a t ih =>
      rw [List.map_cons] at hnd
      have hnd' := (List.nodup_cons.mp hnd).2
      have hnotin := (List.nodup_cons.mp hnd).1
      rcases List.mem_cons.mp hmem with hhead | htail
      · subst hhead
        have hb : b ∉ ((t.filter q).map Prod.fst) := fun hc =>
          hnotin (List.mem_map.mpr (by
            rcases List.mem_map.mp hc with ⟨p, hp, he⟩
            exact ⟨p, List.mem_of_mem_filter hp, he⟩))
        rw [List.filter_cons]
        by_cases hq : q (b, r) = true
        · rw [if_pos hq, if_pos hq, List.map_cons, List.count_cons_self,
            List.count_eq_zero.mpr hb]
        · rw [if_neg hq, if_neg hq]
          exact List.count_eq_zero.mpr hb
      · have hba : b ≠ a.1 := by
          intro he
          exact hnotin (he ▸ List.mem_map.mpr ⟨(b, r), htail, rfl⟩)
        rw [List.filter_cons]
        by_cases hq : q a = true
        · rw [if_pos hq, List.map_cons, List.count_cons_of_ne hba]
          exact ih hnd' htail
        · rw [if_neg hq]
          exact ih hnd' htail

/-- C9: in a sweep at time `now`, a record that is online and stale for more
than 30 s is flipped offline and notified exactly once, and a subsequent sweep
(at any time `now2`) does not notify it again; a record that is already
offline is never notified. -/
theorem C9_health_monitor_sweep (bs : List (String × BotStatus)) (now now2 : ℚ)
    (b : String) (r : BotStatus)
    (hnd : (bs.map Prod.fst).Nodup) (hmem : (b, r) ∈ bs) :
    (r.is_online = true → 30 < now - r.last_seen →
      ((status_monitor_sweep now bs).2.count b = 1
       ∧ (b, { r with is_online := false }) ∈ (status_monitor_sweep now bs).1
       ∧ (status_monitor_sweep now2 (status_monitor_sweep now bs).1).2.count b = 0))
    ∧ (r.is_online = false → (status_monitor_sweep now bs).2.count b = 0) := by
  constructor
  · intro hon hstale
    have hq : (fun p : String × BotStatus =>
        decide (30 < now - p.2.last_seen) && p.2.is_online) (b, r) = true := by
      simp [hon, hstale]
    refine ⟨?_, ?_, ?_⟩
    · rw [sweep_notifications, count_map_fst_filter bs _ b r hnd hmem, if_pos hq]
    · rw [sweep_records]
      refine List.mem_map.mpr ⟨(b, r), hmem, ?_⟩
      simp [hq]
    · have hkeys : ((status_monitor_sweep now bs).1.map Prod.fst) = bs.map Prod.fst := by
        rw [sweep_records, List.map_map]
        rfl
      have hnd2 : ((status_monitor_sweep now bs).1.map Prod.fst).Nodup := by
        rw [hkeys]; exact hnd
      have hmem2 : (b, { r with is_online := false }) ∈ (status_monitor_sweep now bs).1 := by
        rw [sweep_records]
        refine List.mem_map.mpr ⟨(b, r), hmem, ?_⟩
        simp [hq]
      rw [sweep_notifications,
        count_map_fst_filter _ _ b { r with is_online := false } hnd2 hmem2]
      simp
  · intro hoff
    have hq : (fun p : String × BotStatus =>
        decide (30 < now - p.2.last_seen) && p.2.is_online) (b, r) = false := by
      simp [hoff]
    rw [sweep_notifications, count_map_fst_filter bs _ b r hnd hmem, if_neg (by simp [hq])]

/-- Witness for C9: bot `A`, online and last seen at time 0, is notified
exactly once by the sweep at time 31 and not again by the sweep at time 36. -/
theorem C9_health_monitor_sweep_witness :
    ([("A", staleStatusA)].map Prod.fst).Nodup
    ∧ staleStatusA.is_online = true
    ∧ 30 < (31 : ℚ) - staleStatusA.last_seen
    ∧ (status_monitor_sweep 31 [("A", staleStatusA)]).2.count "A" = 1
    ∧ ("A", { staleStatusA with is_online := false })
        ∈ (status_monitor_sweep 31 [("A", staleStatusA)]).1
    ∧ (status_monitor_sweep 36 (status_monitor_sweep 31 [("A", staleStatusA)]).1).2.count "A" = 0 := by
  have hstale : 30 < (31 : ℚ) - staleStatusA.last_seen := by
    norm_num [staleStatusA]
  have h := (C9_health_monitor_sweep [("A", staleStatusA)] 31 36 "A" staleStatusA
    (by simp) (by simp)).1 rfl hstale
  exact ⟨by simp, rfl, hstale, h.1, h.2.1, h.2.2⟩

/-- The left-to-right zone scan raises as soon as any zone lacks the
`claimed_time` key. -/
theorem recent_zones_error (zones : List Zone) (now : ℚ) (z : Zone)
    (hz : z ∈ zones) (hc : z.claimed_time = none) :
    recent_zones zones now = .error "claimed_time" := by
  induction zones with
  | nil => cases hz
  | cons a rest ih =>
      rcases List.mem_cons.mp hz with hhead | htail
      · subst hhead
        simp only [recent_zones, hc]
      · cases ha : a.claimed_time with
        | none => simp only [recent_zones, ha]
        | some t =>
            simp only [recent_zones, ha, ih htail]
            rfl

/-- C10: once `exploration_zones` contains a zone added by the operator
command `assign_exploration_zone` (which stores `assigned_time` and no
`claimed_time`), the coverage-efficiency computation raises `KeyError`
(`claimed_time`) instead of returning a score, at every later call. -/
theorem C10_coverage_efficiency_keyerror (zones : List Zone) (now : ℚ)
    (target_bot : String) (zd : ZoneData) (t : ℚ)
    (hz : assigned_zone_info target_bot zd t ∈ zones) :
    calculate_coverage_efficiency zones now = .error "claimed_time" := by
  have hne : zones ≠ [] := List.ne_nil_of_mem hz
  simp only [calculate_coverage_efficiency]
  rw [if_neg hne, recent_zones_error zones now (assigned_zone_info target_bot zd t) hz rfl]
  rfl

/-- Witness for C10: a zone list holding one swarm-claimed zone and one
operator-assigned zone makes the coverage computation raise. -/
theorem C10_coverage_efficiency_keyerror_witness :
    (assigned_zone_info "B" {} 5
        ∈ [area_info "A" {} 0, assigned_zone_info "B" {} 5])
    ∧ calculate_coverage_efficiency
        [area_info "A" {} 0, assigned_zone_info "B" {} 5] 6 = .error "claimed_time" :=
  ⟨List.Mem.tail _ (List.Mem.head _),
   C10_coverage_efficiency_keyerror
     [area_info "A" {} 0, assigned_zone_info "B" {} 5] 6 "B" {} 5
     (List.Mem.tail _ (List.Mem.head _))⟩

end Jumbo
